import Mathlib

/-!
Verification development for the Guard-X backend safety core:
the Fleet Recovery Controller (`src/Backend/drone_management.py`) and the
Signal-Integrity Controller (`src/Backend/anti_jamming.py`).

The Python control logic is shallowly embedded: each unit record becomes a
`DroneState`, the fleet store becomes an association list, numeric telemetry
is modelled over `ℚ`, and each asynchronous handler becomes a pure state
transformer that also reports how many background tasks it spawned.
-/

namespace GuardX

/-- Unit status, `drone['status']` in the source: `active`, `returning` or
`landed`. -/
inductive DroneStatus
  | active
  | returning
  | landed
  deriving DecidableEq

/-- Values stored under `drone['rth_reason']` by the RTH triggers. -/
inductive RthReason
  | low_battery
  | critical_battery
  deriving DecidableEq

/-- One unit record of the Telemetry Store (`self.drones[drone_id]`).
`rth_reason` is `none` when the key is absent; `rth_initiated` and
`landed_at` record that the corresponding timestamp keys have been written. -/
structure DroneState where
  lat : ℚ
  lon : ℚ
  alt : ℚ
  battery : ℚ
  status : DroneStatus
  returning_home : Bool
  rth_reason : Option RthReason
  rth_initiated : Bool
  emergency_mode : Bool
  landed_at : Bool
  deriving DecidableEq

/-- Python builtin `max` on two numbers, kept kernel-computable over `ℚ`. -/
def qmax (a b : ℚ) : ℚ := if a ≤ b then b else a

/-- Python builtin `min` on two numbers, kept kernel-computable over `ℚ`. -/
def qmin (a b : ℚ) : ℚ := if a ≤ b then a else b

theorem qmax_eq_max (a b : ℚ) : qmax a b = max a b := by
  simp [qmax, max_def]

theorem qmin_eq_min (a b : ℚ) : qmin a b = min a b := by
  simp [qmin, min_def]

/-- `self.rth_threshold = 20` in `DroneFleetManager.__init__`. -/
def rth_threshold : ℚ := 20

/-- `self.emergency_rth_threshold = 10` in `DroneFleetManager.__init__`. -/
def emergency_rth_threshold : ℚ := 10

/-- Home base latitude `28.7041` used in `calculate_return_path` and
`land_drone`. -/
def home_base_lat : ℚ := 287041 / 10000

/-- Home base longitude `77.1025` used in `calculate_return_path` and
`land_drone`. -/
def home_base_lon : ℚ := 771025 / 10000

/-- The record update performed by `DroneFleetManager.auto_rth` on a known
unit: `returning_home=True, rth_reason=low_battery, rth_initiated=now,
status=returning`. -/
def auto_rth_update (d : DroneState) : DroneState :=
  { d with
    returning_home := true
    rth_reason := some .low_battery
    rth_initiated := true
    status := .returning }

/-- The record update performed by `DroneFleetManager.emergency_rth` on a
known unit: `returning_home=True, rth_reason=critical_battery,
rth_initiated=now, emergency_mode=True, status=returning`. -/
def emergency_rth_update (d : DroneState) : DroneState :=
  { d with
    returning_home := true
    rth_reason := some .critical_battery
    rth_initiated := true
    emergency_mode := true
    status := .returning }

/-- One iteration of the per-unit body of
`DroneFleetManager.monitor_battery_levels` applied to a single record.
Returns the updated record and the number of return-journey tasks spawned
(via `send_rth_command` / `send_emergency_rth_command`).

Faithful to the source control flow: the emergency branch has no
`returning_home` guard; after either RTH trigger the drain re-reads
`returning_home` from the mutated record (now `true`), so no drain occurs in
the same cycle; drain clamps at 0, charge clamps at 100. -/
def monitor_battery_step (d : DroneState) : DroneState × Nat :=
  if d.status = .active then
    if d.battery ≤ emergency_rth_threshold then
      (emergency_rth_update d, 1)
    else if d.battery ≤ rth_threshold ∧ d.returning_home = false then
      (auto_rth_update d, 1)
    else if d.returning_home = false then
      ({ d with battery := qmax 0 (d.battery - 1/2) }, 0)
    else
      (d, 0)
  else if d.status = .landed then
    if d.battery < 100 then
      ({ d with battery := qmin 100 (d.battery + 2) }, 0)
    else
      (d, 0)
  else
    (d, 0)

/-- The fleet store `self.drones`: unit identifier to record. -/
def Fleet : Type := List (String × DroneState)

/-- Record lookup, `self.drones.get(drone_id)`. -/
def Fleet.find (f : Fleet) (i : String) : Option DroneState :=
  List.lookup i f

/-- In-place record replacement `self.drones[drone_id] = d`. -/
def Fleet.put (f : Fleet) (i : String) (d : DroneState) : Fleet :=
  List.map (fun p => if p.1 = i then (p.1, d) else p) f

/-- `DroneFleetManager.manual_rth`: if the unit id is known, run the Auto-RTH
path on it (unconditionally — `auto_rth` itself has no `returning_home`
guard) and return `True`; otherwise return `False` and touch nothing.
The `Nat` component counts journey tasks spawned. -/
def manual_rth (f : Fleet) (i : String) : Bool × Fleet × Nat :=
  match Fleet.find f i with
  | none => (false, f, 0)
  | some d => (true, Fleet.put f i (auto_rth_update d), 1)

/-- One interpolation step of `DroneFleetManager.simulate_return_journey`
(`step` is the loop variable, `progress = step / 10`): positions are re-read
from the mutated record every step, altitude and battery are clamped at 0,
and the battery drain grows with progress (`0.5 * (1 + progress)`). -/
def journey_step (d : DroneState) (step : Nat) : DroneState :=
  let progress : ℚ := (step : ℚ) / 10
  { d with
    lat := d.lat + (home_base_lat - d.lat) * progress
    lon := d.lon + (home_base_lon - d.lon) * progress
    alt := qmax 0 (d.alt * (1 - progress))
    battery := qmax 0 (d.battery - (1/2) * (1 + progress)) }

/-- The record evolution of `simulate_return_journey`: the loop
`for step in range(steps + 1)` with `steps = 10`, i.e. eleven interpolation
steps applied in order. -/
def simulate_return_journey (d : DroneState) : DroneState :=
  (List.range 11).foldl journey_step d

/-- `DroneFleetManager.land_drone`: unconditionally set `status=landed`,
clear `returning_home` and `emergency_mode`, reset position to the home
base at altitude 0, and record the `landed_at` timestamp. Battery is not
touched and the record is not removed. -/
def land_drone (d : DroneState) : DroneState :=
  { d with
    status := .landed
    returning_home := false
    emergency_mode := false
    lat := home_base_lat
    lon := home_base_lon
    alt := 0
    landed_at := true }

/-- End of a return journey for unit `i`: `simulate_return_journey` runs its
eleven steps on the record and then awaits `land_drone`. An unknown id makes
both functions return early without touching the store. -/
def complete_return_journey (f : Fleet) (i : String) : Fleet :=
  match Fleet.find f i with
  | none => f
  | some d => Fleet.put f i (land_drone (simulate_return_journey d))

/-- Monitoring-controller state relevant to `start_monitoring`: the
monitoring flag and the number of monitor tasks ever spawned. -/
structure MonState where
  monitoring : Bool
  tasks : Nat
  deriving DecidableEq

/-- `DroneFleetManager.start_monitoring`: guarded — if `self.monitoring` is
already true it prints and returns; otherwise it sets the flag and spawns
three monitor tasks (battery, health, positions). -/
def fleet_start_monitoring (s : MonState) : MonState :=
  if s.monitoring then s
  else { monitoring := true, tasks := s.tasks + 3 }

/-- `AntiJammingSystem.start_monitoring`: no guard — it always sets
`self.is_monitoring = True` and spawns four monitor tasks (signal, network,
interference, GPS). -/
def jamming_start_monitoring (s : MonState) : MonState :=
  { monitoring := true, tasks := s.tasks + 4 }

/-- Jamming event types passed to `handle_potential_jamming`. -/
inductive JamType
  | signal_drop
  | network
  | rf_interference
  | gps
  deriving DecidableEq

/-- Severity levels returned by `calculate_jamming_severity`. -/
inductive Severity
  | LOW
  | MEDIUM
  | HIGH
  | CRITICAL
  deriving DecidableEq

/-- The `details` dict fields read by `calculate_jamming_severity`
(`details.get(key, default)`); `none` models an absent key. -/
structure JamDetails where
  drop_percent : Option ℚ
  packet_loss : Option ℚ
  interference_level : Option ℚ
  available : Option Bool
  deriving DecidableEq

/-- The per-type score of `AntiJammingSystem.calculate_jamming_severity`:
`signal_drop` drop-percent / 10, `network` packet-loss / 5,
`rf_interference` level * 100, `gps` 80 when unavailable else 20. -/
def severity_score (ty : JamType) (d : JamDetails) : ℚ :=
  match ty with
  | .signal_drop => d.drop_percent.getD 0 / 10
  | .network => d.packet_loss.getD 0 / 5
  | .rf_interference => d.interference_level.getD 0 * 100
  | .gps => if d.available.getD true = false then 80 else 20

/-- `AntiJammingSystem.calculate_jamming_severity`: score the event, then
bucket with the `if score >= 80 / elif >= 60 / elif >= 40 / else` chain. -/
def calculate_jamming_severity (ty : JamType) (d : JamDetails) : Severity :=
  let score := severity_score ty d
  if score ≥ 80 then .CRITICAL
  else if score ≥ 60 then .HIGH
  else if score ≥ 40 then .MEDIUM
  else .LOW

/-- The coordinator state around `AntiJammingSystem.handle_potential_jamming`:
the `jamming_detected` flag, the instant at which the pending
`asyncio.sleep(30)` will clear it (`none` when no clearing is pending, i.e.
the cooldown code was never reached), and counters for created events,
completed countermeasure runs, subscriber dispatches and evidence-write
failures, plus the severity of the last created event. -/
structure JamState where
  active : Bool
  clearAt : Option ℚ
  events : Nat
  countermeasures : Nat
  dispatches : Nat
  evidence_errors : Nat
  last_severity : Option Severity
  deriving DecidableEq

/-- The value the `jamming_detected` flag has at instant `t`: set, and the
pending cooldown (if any) has not yet cleared it. -/
def jam_active_at (s : JamState) (t : ℚ) : Bool :=
  s.active &&
    match s.clearAt with
    | none => true
    | some c => decide (t < c)

/-- `asyncio.sleep(30)` before `self.jamming_detected = False`. -/
def cooldown : ℚ := 30

/-- Initial `AntiJammingSystem` state: flag clear, nothing counted. -/
def jam_init : JamState :=
  { active := false, clearAt := none, events := 0, countermeasures := 0
    dispatches := 0, evidence_errors := 0, last_severity := none }

/-- `AntiJammingSystem.handle_potential_jamming`, one breach arriving at
instant `t`. If the flag is (still) set the body is skipped entirely.
Otherwise the flag is set, a JammingEvent with computed severity is created,
countermeasures run — `store_jamming_evidence` has no try/except, so when
the evidence write fails (`writeOk = false`) the exception propagates: the
countermeasure run does not complete, no callback is notified, and the
cooldown sleep and flag clearing are never reached (the caller monitor
catches the exception). With a successful write the callbacks run and the
cooldown will clear the flag at `t + 30`. -/
def handle_potential_jamming (s : JamState) (t : ℚ) (ty : JamType)
    (d : JamDetails) (writeOk : Bool) : JamState :=
  if jam_active_at s t then s
  else if writeOk then
    { active := true
      clearAt := some (t + cooldown)
      events := s.events + 1
      countermeasures := s.countermeasures + 1
      dispatches := s.dispatches + 1
      evidence_errors := s.evidence_errors
      last_severity := some (calculate_jamming_severity ty d) }
  else
    { active := true
      clearAt := none
      events := s.events + 1
      countermeasures := s.countermeasures
      dispatches := s.dispatches
      evidence_errors := s.evidence_errors + 1
      last_severity := some (calculate_jamming_severity ty d) }

/-- A threshold breach reported by one of the four monitors. -/
structure Breach where
  t : ℚ
  ty : JamType
  details : JamDetails

/-- A sequence of breaches handled in time order, every evidence write
succeeding. -/
def process_breaches (s : JamState) (l : List Breach) : JamState :=
  l.foldl (fun s b => handle_potential_jamming s b.t b.ty b.details true) s

/-- One `SignalSample` appended by `monitor_signal_strength`; a `none` wifi
value models a falsy reading (Python `if s['wifi']` drops `None` and `0`). -/
structure SignalSample where
  timestamp : ℚ
  wifi : Option ℚ
  cellular : Option ℚ
  deriving DecidableEq

/-- The filter `[s['wifi'] for s in ... if s['wifi']]`: keep a wifi value
only when present and nonzero (Python truthiness). -/
def truthy_wifi (s : SignalSample) : Option ℚ :=
  match s.wifi with
  | none => none
  | some w => if w = 0 then none else some w

/-- Python `l[-n:]`: the last `n` elements of a list. -/
def last_n (n : Nat) (l : List α) : List α :=
  l.drop (l.length - n)

/-- Arithmetic mean, `np.mean` over `ℚ` (0 on the empty list). -/
def list_mean (l : List ℚ) : ℚ :=
  l.sum / l.length

/-- Population variance, `np.var` over `ℚ` (0 on the empty list). -/
def list_var (l : List ℚ) : ℚ :=
  (l.map (fun x => (x - list_mean l) ^ 2)).sum / l.length

/-- `AntiJammingSystem.detect_rf_interference`: fallback 0.1 below 10
samples, 0.5 when the last 10 samples hold no truthy wifi values, otherwise
`min(np.var(recent) / 100, 1.0)`. -/
def detect_rf_interference (hist : List SignalSample) : ℚ :=
  if hist.length < 10 then 1/10
  else
    let recent := (last_n 10 hist).filterMap truthy_wifi
    if recent.isEmpty then 1/2
    else qmin (list_var recent / 100) 1

/-- `self.interference_threshold = 0.8` in `AntiJammingSystem.__init__`. -/
def interference_threshold : ℚ := 8/10

/-- The severity mapping exactly as the specification words it:
signal_drop drop-percent ÷ 10, network packet-loss ÷ 5, rf_interference
normalized-variance × 100, gps 80 if unavailable else 20. Spec-side
definition, to be compared with `severity_score` from the source. -/
def spec_severity_score (ty : JamType) (d : JamDetails) : ℚ :=
  match ty with
  | .signal_drop => d.drop_percent.getD 0 / 10
  | .network => d.packet_loss.getD 0 / 5
  | .rf_interference => d.interference_level.getD 0 * 100
  | .gps => if d.available.getD true = false then 80 else 20

/-- The bucketing exactly as the specification words it:
score ≥ 80 CRITICAL, 60 ≤ score < 80 HIGH, 40 ≤ score < 60 MEDIUM,
score < 40 LOW. Spec-side definition. -/
def spec_severity_bucket (s : ℚ) : Severity :=
  if 80 ≤ s then .CRITICAL
  else if 60 ≤ s ∧ s < 80 then .HIGH
  else if 40 ≤ s ∧ s < 60 then .MEDIUM
  else .LOW

/-- Replacing the record stored under a present key. -/
theorem Fleet.find_put (f : Fleet) (i : String) (d d2 : DroneState)
    (h : Fleet.find f i = some d) :
    Fleet.find (Fleet.put f i d2) i = some d2 := by
  induction f with
  | nil => simp [Fleet.find, List.lookup] at h
  | cons p rest ih =>
    obtain ⟨k, v⟩ := p
    by_cases hk : i = k
    · subst hk
      have hput : Fleet.put ((i, v) :: rest) i d2
          = (i, d2) :: Fleet.put rest i d2 := by
        simp [Fleet.put]
      rw [hput]
      simp [Fleet.find, List.lookup]
    · have hk2 : ¬ k = i := fun hkk => hk hkk.symm
      have hbeq : (i == k) = false := by
        simp [hk]
      simp only [Fleet.find, List.lookup, hbeq] at h
      have hput : Fleet.put ((k, v) :: rest) i d2
          = (k, v) :: Fleet.put rest i d2 := by
        simp [Fleet.put, hk2]
      rw [hput]
      simp only [Fleet.find, List.lookup, hbeq]
      exact ih h

/-- `monitor_battery_levels` touches only `active` and `landed` records:
a `returning` record passes through the cycle body unchanged, with no task
spawned. -/
theorem monitor_step_returning_noop (d : DroneState)
    (h : d.status = .returning) : monitor_battery_step d = (d, 0) := by
  simp [monitor_battery_step, h]

/-- Every journey interpolation step leaves the battery clamped at 0. -/
theorem journey_step_battery_nonneg (d : DroneState) (s : Nat) :
    0 ≤ (journey_step d s).battery := by
  simp only [journey_step, qmax_eq_max]
  exact le_max_left _ _

/-- The battery after the full eleven-step return journey is nonnegative. -/
theorem simulate_return_journey_battery_nonneg (d : DroneState) :
    0 ≤ (simulate_return_journey d).battery := by
  have h : simulate_return_journey d
      = journey_step ((List.range 10).foldl journey_step d) 10 := by
    rw [simulate_return_journey, List.range_succ, List.foldl_append]
    rfl
  rw [h]
  exact journey_step_battery_nonneg _ _

/-- A downward battery mutation clamped at 0 stays within [0, 100]. -/
theorem qmax0_bounds (b c : ℚ) (h1 : b ≤ 100) (hc : 0 ≤ c) :
    0 ≤ qmax 0 (b - c) ∧ qmax 0 (b - c) ≤ 100 := by
  rw [qmax_eq_max]
  exact ⟨le_max_left _ _, max_le (by norm_num) (by linarith)⟩

/-- An upward battery mutation clamped at 100 stays within [0, 100]. -/
theorem qmin100_bounds (b : ℚ) (h0 : 0 ≤ b) :
    0 ≤ qmin 100 (b + 2) ∧ qmin 100 (b + 2) ≤ 100 := by
  rw [qmin_eq_min]
  exact ⟨le_min (by norm_num) (by linarith), min_le_left _ _⟩

/-- Population variance over `ℚ` is nonnegative. -/
theorem list_var_nonneg (l : List ℚ) : 0 ≤ list_var l := by
  unfold list_var
  apply div_nonneg
  · apply List.sum_nonneg
    intro x hx
    simp only [List.mem_map] at hx
    obtain ⟨y, _, rfl⟩ := hx
    positivity
  · positivity

/-- Population variance of a single sample is 0. -/
theorem list_var_singleton (x : ℚ) : list_var [x] = 0 := by
  simp [list_var, list_mean]

/-- An active unit with battery between the thresholds that already carries
`emergency_mode = true`: the Auto-RTH branch leaves the flag untouched. -/
def c1cex : DroneState :=
  { lat := 0, lon := 0, alt := 50, battery := 15, status := .active,
    returning_home := false, rth_reason := none, rth_initiated := false,
    emergency_mode := true, landed_at := false }

/-- C1 counterexample: an active, non-returning unit with battery 15 and
`emergency_mode` initially true satisfies the claim's hypotheses for the
Auto-RTH branch, but after one monitor cycle `emergency_mode` is still true,
not false as the claim states — `auto_rth` never writes `emergency_mode`. -/
theorem c1_counterexample :
    c1cex.status = .active ∧ 10 < c1cex.battery ∧ c1cex.battery ≤ 20 ∧
    c1cex.returning_home = false ∧
    (monitor_battery_step c1cex).1.status = .returning ∧
    (monitor_battery_step c1cex).1.rth_reason = some .low_battery ∧
    (monitor_battery_step c1cex).1.emergency_mode = true := by
  exact ⟨rfl, by norm_num [c1cex], by norm_num [c1cex], rfl, rfl, rfl, rfl⟩

/-- C1 (amended): on an active unit, battery ≤ 10 makes one monitor cycle
perform the full Emergency-RTH update (status returning, returning_home,
emergency_mode, rth_reason critical_battery, one journey task); battery in
(10, 20] on a non-returning unit performs the Auto-RTH update (status
returning, rth_reason low_battery, one journey task) and leaves
`emergency_mode` unchanged — in particular false whenever it was false
before the cycle. -/
theorem c1_battery_rth_cycle (d : DroneState) (ha : d.status = .active) :
    (d.battery ≤ 10 →
      monitor_battery_step d = (emergency_rth_update d, 1) ∧
      (monitor_battery_step d).1.status = .returning ∧
      (monitor_battery_step d).1.returning_home = true ∧
      (monitor_battery_step d).1.emergency_mode = true ∧
      (monitor_battery_step d).1.rth_reason = some .critical_battery) ∧
    (10 < d.battery → d.battery ≤ 20 → d.returning_home = false →
      monitor_battery_step d = (auto_rth_update d, 1) ∧
      (monitor_battery_step d).1.status = .returning ∧
      (monitor_battery_step d).1.returning_home = true ∧
      (monitor_battery_step d).1.rth_reason = some .low_battery ∧
      (monitor_battery_step d).1.emergency_mode = d.emergency_mode) := by
  constructor
  · intro hb
    have hstep : monitor_battery_step d = (emergency_rth_update d, 1) := by
      simp [monitor_battery_step, ha, emergency_rth_threshold, hb]
    exact ⟨hstep, by rw [hstep]; rfl, by rw [hstep]; rfl, by rw [hstep]; rfl,
      by rw [hstep]; rfl⟩
  · intro hb1 hb2 hr
    have hnem : ¬ d.battery ≤ emergency_rth_threshold := by
      rw [emergency_rth_threshold]
      linarith
    have hstep : monitor_battery_step d = (auto_rth_update d, 1) := by
      simp [monitor_battery_step, ha, hnem, rth_threshold, hb2, hr]
    exact ⟨hstep, by rw [hstep]; rfl, by rw [hstep]; rfl, by rw [hstep]; rfl,
      by rw [hstep]; rfl⟩

/-- An active unit at critical battery, used to instantiate C1. -/
def c1w : DroneState :=
  { lat := 0, lon := 0, alt := 120, battery := 8, status := .active,
    returning_home := false, rth_reason := none, rth_initiated := false,
    emergency_mode := false, landed_at := false }

/-- An active unit at low battery, used to instantiate C1. -/
def c1w2 : DroneState :=
  { lat := 0, lon := 0, alt := 140, battery := 15, status := .active,
    returning_home := false, rth_reason := none, rth_initiated := false,
    emergency_mode := false, landed_at := false }

/-- C1 witness: the amended theorem evaluated on a battery-8 and a
battery-15 active unit. -/
theorem c1_battery_rth_cycle_witness :
    (monitor_battery_step c1w).1.rth_reason = some .critical_battery ∧
    (monitor_battery_step c1w2).1.rth_reason = some .low_battery ∧
    (monitor_battery_step c1w2).1.emergency_mode = c1w2.emergency_mode := by
  refine ⟨((c1_battery_rth_cycle c1w rfl).1 (by norm_num [c1w])).2.2.2.2, ?_, ?_⟩
  · exact ((c1_battery_rth_cycle c1w2 rfl).2 (by norm_num [c1w2])
      (by norm_num [c1w2]) rfl).2.2.2.1
  · exact ((c1_battery_rth_cycle c1w2 rfl).2 (by norm_num [c1w2])
      (by norm_num [c1w2]) rfl).2.2.2.2

/-- C2: while the jamming flag is live a breach of any type is dropped
without creating an event, running a countermeasure or dispatching; two
breaches within one cooldown window yield exactly one event and one
dispatch; a further breach at or after cooldown expiry yields a second. -/
theorem c2_jamming_debounce :
    (∀ (s : JamState) (t : ℚ) (ty : JamType) (dt : JamDetails) (w : Bool),
      jam_active_at s t = true → handle_potential_jamming s t ty dt w = s) ∧
    (∀ b1 b2 : Breach, b2.t < b1.t + cooldown →
      (process_breaches jam_init [b1, b2]).events = 1 ∧
      (process_breaches jam_init [b1, b2]).countermeasures = 1 ∧
      (process_breaches jam_init [b1, b2]).dispatches = 1) ∧
    (∀ b1 b2 b3 : Breach, b2.t < b1.t + cooldown → b1.t + cooldown ≤ b3.t →
      (process_breaches jam_init [b1, b2, b3]).events = 2 ∧
      (process_breaches jam_init [b1, b2, b3]).dispatches = 2) := by
  refine ⟨?_, ?_, ?_⟩
  · intro s t ty dt w h
    simp [handle_potential_jamming, h]
  · intro b1 b2 h
    simp [process_breaches, handle_potential_jamming, jam_active_at,
      jam_init, h]
  · intro b1 b2 b3 h h3
    have hn3 : ¬ b3.t < b1.t + cooldown := not_lt.mpr h3
    simp [process_breaches, handle_potential_jamming, jam_active_at,
      jam_init, h, hn3]

/-- A network breach at instant `t`, used to instantiate C2. -/
def c2b (t : ℚ) : Breach :=
  { t := t, ty := .network,
    details := { drop_percent := none, packet_loss := some 20,
                 interference_level := none, available := none } }

/-- C2 witness: breaches at 0 s and 10 s share one event and one dispatch;
a third breach at 40 s produces the second event. -/
theorem c2_jamming_debounce_witness :
    (process_breaches jam_init [c2b 0, c2b 10]).events = 1 ∧
    (process_breaches jam_init [c2b 0, c2b 10, c2b 40]).events = 2 := by
  refine ⟨(c2_jamming_debounce.2.1 (c2b 0) (c2b 10) ?_).1,
    (c2_jamming_debounce.2.2 (c2b 0) (c2b 10) (c2b 40) ?_ ?_).1⟩
  · norm_num [c2b, cooldown]
  · norm_num [c2b, cooldown]
  · norm_num [c2b, cooldown]

/-- The spec bucketing collapses to the same elif chain the source uses. -/
theorem spec_severity_bucket_cases (s : ℚ) :
    spec_severity_bucket s =
      if 80 ≤ s then .CRITICAL
      else if 60 ≤ s then .HIGH
      else if 40 ≤ s then .MEDIUM
      else .LOW := by
  unfold spec_severity_bucket
  by_cases h1 : 80 ≤ s
  · simp [h1]
  · by_cases h2 : 60 ≤ s
    · simp [h1, h2, not_le.mp h1]
    · by_cases h3 : 40 ≤ s
      · simp [h1, h2, h3, not_le.mp h2]
      · simp [h1, h2, h3]

/-- C3: the source severity computation agrees pointwise with the
specification's mapping-then-bucketing description, and the stated boundary
scores 80, 79.999, 60, 59.999, 40, 39.999 land in CRITICAL, HIGH, HIGH,
MEDIUM, MEDIUM, LOW respectively (exercised through the
rf_interference scoring, variance × 100). -/
theorem c3_severity_bucketing :
    (∀ (ty : JamType) (dt : JamDetails),
      calculate_jamming_severity ty dt
        = spec_severity_bucket (spec_severity_score ty dt)) ∧
    calculate_jamming_severity .rf_interference
      ⟨none, none, some (80/100), none⟩ = .CRITICAL ∧
    calculate_jamming_severity .rf_interference
      ⟨none, none, some (79999/100000), none⟩ = .HIGH ∧
    calculate_jamming_severity .rf_interference
      ⟨none, none, some (60/100), none⟩ = .HIGH ∧
    calculate_jamming_severity .rf_interference
      ⟨none, none, some (59999/100000), none⟩ = .MEDIUM ∧
    calculate_jamming_severity .rf_interference
      ⟨none, none, some (40/100), none⟩ = .MEDIUM ∧
    calculate_jamming_severity .rf_interference
      ⟨none, none, some (39999/100000), none⟩ = .LOW := by
  refine ⟨?_, ?_, ?_, ?_, ?_, ?_, ?_⟩
  · intro ty dt
    rw [spec_severity_bucket_cases]
    rfl
  all_goals norm_num [calculate_jamming_severity, severity_score]

/-- A unit mid-return: emergency RTH already triggered, not yet landed. -/
def c4cex : DroneState :=
  { lat := 1, lon := 2, alt := 50, battery := 8, status := .returning,
    returning_home := true, rth_reason := some .critical_battery,
    rth_initiated := true, emergency_mode := true, landed_at := false }

/-- A one-unit fleet holding the mid-return unit. -/
def c4fleet : Fleet := [("GUARD-01", c4cex)]

/-- C4 counterexample: a manual RTH command for a unit that is already
returning (returning_home = true, not landed) launches a fresh journey task
and overwrites `rth_reason` from critical_battery to low_battery —
`manual_rth` calls `auto_rth` with no returning_home guard, so the claimed
idempotence fails on the manual path. -/
theorem c4_counterexample :
    c4cex.returning_home = true ∧ c4cex.status = .returning ∧
    c4cex.rth_reason = some .critical_battery ∧
    (manual_rth c4fleet "GUARD-01").2.2 = 1 ∧
    (Fleet.find (manual_rth c4fleet "GUARD-01").2.1 "GUARD-01").map
      DroneState.rth_reason = some (some .low_battery) := by
  exact ⟨rfl, rfl, rfl, rfl, rfl⟩

/-- C4 (amended): the battery-monitor cycle really is idempotent for a
returning unit — any number of re-runs leaves the record unchanged and
spawns no journey task; but the manual RTH command is not guarded: for any
known unit, returning or not, it unconditionally re-runs the Auto-RTH
update (overwriting `rth_reason` to low_battery) and launches a new
journey task. -/
theorem c4_rth_idempotence :
    (∀ d : DroneState, d.status = .returning →
      monitor_battery_step d = (d, 0)) ∧
    (∀ (d : DroneState) (n : Nat), d.status = .returning →
      (fun x => (monitor_battery_step x).1)^[n] d = d) ∧
    (∀ (f : Fleet) (i : String) (d : DroneState), Fleet.find f i = some d →
      manual_rth f i = (true, Fleet.put f i (auto_rth_update d), 1)) := by
  refine ⟨monitor_step_returning_noop, ?_, ?_⟩
  · intro d n h
    induction n with
    | zero => rfl
    | succ k ih =>
      rw [Function.iterate_succ_apply, monitor_step_returning_noop d h]
      exact ih
  · intro f i d h
    simp [manual_rth, h]

/-- C4 witness: the amended theorem evaluated on the mid-return unit and its
one-unit fleet. -/
theorem c4_rth_idempotence_witness :
    monitor_battery_step c4cex = (c4cex, 0) ∧
    (fun x => (monitor_battery_step x).1)^[3] c4cex = c4cex ∧
    manual_rth c4fleet "GUARD-01"
      = (true, Fleet.put c4fleet "GUARD-01" (auto_rth_update c4cex), 1) := by
  exact ⟨c4_rth_idempotence.1 c4cex rfl, c4_rth_idempotence.2.1 c4cex 3 rfl,
    c4_rth_idempotence.2.2 c4fleet "GUARD-01" c4cex rfl⟩

/-- The network-breach details used to exercise the evidence-write failure. -/
def c5d : JamDetails :=
  { drop_percent := none, packet_loss := some 20,
    interference_level := none, available := none }

/-- The coordinator state right after a breach whose evidence write failed. -/
def c5s1 : JamState := handle_potential_jamming jam_init 0 .network c5d false

/-- C5 counterexample: when the evidence write fails, the flag is set but no
clearing is ever scheduled (`clearAt = none`), no subscriber was notified,
and a breach arriving 1000 s later — far beyond the 30 s cooldown — is still
dropped, contradicting the claim that the coordinator still sleeps the
cooldown, clears the flag and lets later breaches produce events. -/
theorem c5_counterexample :
    c5s1.active = true ∧ c5s1.clearAt = none ∧ c5s1.events = 1 ∧
    c5s1.dispatches = 0 ∧ c5s1.countermeasures = 0 ∧
    jam_active_at c5s1 1000 = true ∧
    handle_potential_jamming c5s1 1000 .network c5d true = c5s1 := by
  exact ⟨rfl, rfl, rfl, rfl, rfl, rfl, rfl⟩

/-- C5 (amended): a jamming-evidence write failure is not reverted but it is
also not contained: the JammingEvent creation and `active = true` stand,
yet the exception propagates out of `activate_countermeasures` before the
subscriber fan-out and the cooldown, so no subscriber is notified, the flag
is never cleared, and every later breach (any type, any instant) is
dropped; only the evidence-error is reported by the enclosing monitor. -/
theorem c5_evidence_write_failure (s : JamState) (t : ℚ) (ty : JamType)
    (dt : JamDetails) (h : jam_active_at s t = false) :
    (handle_potential_jamming s t ty dt false).events = s.events + 1 ∧
    (handle_potential_jamming s t ty dt false).active = true ∧
    (handle_potential_jamming s t ty dt false).clearAt = none ∧
    (handle_potential_jamming s t ty dt false).dispatches = s.dispatches ∧
    (handle_potential_jamming s t ty dt false).countermeasures
      = s.countermeasures ∧
    (handle_potential_jamming s t ty dt false).evidence_errors
      = s.evidence_errors + 1 ∧
    ∀ (t2 : ℚ) (ty2 : JamType) (dt2 : JamDetails) (w2 : Bool),
      handle_potential_jamming
        (handle_potential_jamming s t ty dt false) t2 ty2 dt2 w2
        = handle_potential_jamming s t ty dt false := by
  have hstep : handle_potential_jamming s t ty dt false
      = { active := true, clearAt := none, events := s.events + 1,
          countermeasures := s.countermeasures, dispatches := s.dispatches,
          evidence_errors := s.evidence_errors + 1,
          last_severity := some (calculate_jamming_severity ty dt) } := by
    simp [handle_potential_jamming, h]
  refine ⟨by rw [hstep], by rw [hstep], by rw [hstep], by rw [hstep],
    by rw [hstep], by rw [hstep], ?_⟩
  intro t2 ty2 dt2 w2
  rw [hstep]
  simp [handle_potential_jamming, jam_active_at]

/-- C5 witness: the amended theorem evaluated on the initial state with a
failing write at instant 0. -/
theorem c5_evidence_write_failure_witness :
    c5s1.events = jam_init.events + 1 ∧ c5s1.clearAt = none ∧
    c5s1.dispatches = jam_init.dispatches ∧
    handle_potential_jamming c5s1 50 .gps c5d true = c5s1 := by
  obtain ⟨h1, _, h3, h4, _, _, h7⟩ :=
    c5_evidence_write_failure jam_init 0 .network c5d rfl
  exact ⟨h1, h3, h4, h7 50 .gps c5d true⟩

/-- A controller state that is already monitoring with its four tasks. -/
def c6s : MonState := { monitoring := true, tasks := 4 }

/-- C6 counterexample: with the anti-jamming controller already monitoring,
a second `start_monitoring` call is not a no-op — it spawns four more
monitor tasks, because `AntiJammingSystem.start_monitoring` has no guard on
`is_monitoring`. -/
theorem c6_counterexample :
    c6s.monitoring = true ∧ jamming_start_monitoring c6s ≠ c6s ∧
    (jamming_start_monitoring c6s).tasks = c6s.tasks + 4 := by
  exact ⟨rfl, by decide, rfl⟩

/-- C6 (amended): the fleet controller's start is idempotent (a second call
while the flag is set changes nothing and spawns nothing), but the
anti-jamming controller's start is unguarded: every call, including a call
while already monitoring, sets the flag and spawns four new monitor
tasks. -/
theorem c6_start_monitoring :
    (∀ s : MonState, s.monitoring = true → fleet_start_monitoring s = s) ∧
    (∀ s : MonState, (jamming_start_monitoring s).monitoring = true ∧
      (jamming_start_monitoring s).tasks = s.tasks + 4) := by
  constructor
  · intro s h
    simp [fleet_start_monitoring, h]
  · intro s
    exact ⟨rfl, rfl⟩

/-- C6 witness: the amended theorem evaluated on the already-monitoring
state. -/
theorem c6_start_monitoring_witness :
    fleet_start_monitoring c6s = c6s ∧
    (jamming_start_monitoring c6s).tasks = c6s.tasks + 4 := by
  exact ⟨c6_start_monitoring.1 c6s rfl, (c6_start_monitoring.2 c6s).2⟩

/-- C7: completing a return journey for any known unit lands it
unconditionally — status landed, returning_home and emergency_mode cleared,
position reset to the home base at altitude 0, landing timestamp recorded,
battery nonnegative — and the unit's record stays in the store. -/
theorem c7_landing (f : Fleet) (i : String) (d : DroneState)
    (h : Fleet.find f i = some d) :
    ∃ d2, Fleet.find (complete_return_journey f i) i = some d2 ∧
      d2.status = .landed ∧ d2.returning_home = false ∧
      d2.emergency_mode = false ∧ d2.lat = home_base_lat ∧
      d2.lon = home_base_lon ∧ d2.alt = 0 ∧ d2.landed_at = true ∧
      0 ≤ d2.battery := by
  refine ⟨land_drone (simulate_return_journey d), ?_, rfl, rfl, rfl, rfl,
    rfl, rfl, rfl, ?_⟩
  · have hc : complete_return_journey f i
        = Fleet.put f i (land_drone (simulate_return_journey d)) := by
      simp [complete_return_journey, h]
    rw [hc]
    exact Fleet.find_put f i d _ h
  · show 0 ≤ (simulate_return_journey d).battery
    exact simulate_return_journey_battery_nonneg d

/-- A returning unit away from base, used to instantiate C7. -/
def c7d : DroneState :=
  { lat := 287/10, lon := 771/10, alt := 140, battery := 15,
    status := .returning, returning_home := true,
    rth_reason := some .low_battery, rth_initiated := true,
    emergency_mode := false, landed_at := false }

/-- A one-unit fleet holding the returning unit. -/
def c7fleet : Fleet := [("GUARD-03", c7d)]

/-- C7 witness: the landing theorem evaluated on the one-unit fleet. -/
theorem c7_landing_witness :
    ∃ d2, Fleet.find (complete_return_journey c7fleet "GUARD-03") "GUARD-03"
        = some d2 ∧
      d2.status = .landed ∧ d2.returning_home = false ∧
      d2.emergency_mode = false ∧ d2.lat = home_base_lat ∧
      d2.lon = home_base_lon ∧ d2.alt = 0 ∧ d2.landed_at = true ∧
      0 ≤ d2.battery :=
  c7_landing c7fleet "GUARD-03" c7d rfl

/-- C8: starting from battery in [0, 100], every battery mutation of the
monitor cycle (drain while active, charge while landed) and every journey
interpolation step keeps battery in [0, 100]. -/
theorem c8_battery_clamp (d : DroneState) (h0 : 0 ≤ d.battery)
    (h1 : d.battery ≤ 100) :
    (0 ≤ (monitor_battery_step d).1.battery ∧
      (monitor_battery_step d).1.battery ≤ 100) ∧
    ∀ s : Nat, 0 ≤ (journey_step d s).battery ∧
      (journey_step d s).battery ≤ 100 := by
  constructor
  · unfold monitor_battery_step
    split_ifs
    · exact ⟨h0, h1⟩
    · exact ⟨h0, h1⟩
    · exact qmax0_bounds d.battery (1/2) h1 (by norm_num)
    · exact ⟨h0, h1⟩
    · exact qmin100_bounds d.battery h0
    · exact ⟨h0, h1⟩
    · exact ⟨h0, h1⟩
  · intro s
    show 0 ≤ qmax 0 (d.battery - (1/2) * (1 + (s : ℚ)/10)) ∧
      qmax 0 (d.battery - (1/2) * (1 + (s : ℚ)/10)) ≤ 100
    exact qmax0_bounds d.battery ((1/2) * (1 + (s : ℚ)/10)) h1
      (by positivity)

/-- An in-range active unit, used to instantiate C8. -/
def c8d : DroneState :=
  { lat := 0, lon := 0, alt := 95, battery := 50, status := .active,
    returning_home := false, rth_reason := none, rth_initiated := false,
    emergency_mode := false, landed_at := false }

/-- C8 witness: the clamp theorem evaluated on a battery-50 active unit. -/
theorem c8_battery_clamp_witness :
    (0 ≤ (monitor_battery_step c8d).1.battery ∧
      (monitor_battery_step c8d).1.battery ≤ 100) ∧
    (0 ≤ (journey_step c8d 3).battery ∧
      (journey_step c8d 3).battery ≤ 100) := by
  obtain ⟨hm, hj⟩ := c8_battery_clamp c8d (by norm_num [c8d])
    (by norm_num [c8d])
  exact ⟨hm, hj 3⟩

/-- C9: a manual RTH command for an unknown unit id reports `False` to the
caller, leaves the fleet store untouched and spawns no journey task; for a
known unit id it reports `True`. -/
theorem c9_manual_rth_unknown :
    (∀ (f : Fleet) (i : String), Fleet.find f i = none →
      manual_rth f i = (false, f, 0)) ∧
    (∀ (f : Fleet) (i : String) (d : DroneState), Fleet.find f i = some d →
      (manual_rth f i).1 = true) := by
  constructor
  · intro f i h
    simp [manual_rth, h]
  · intro f i d h
    simp [manual_rth, h]

/-- An active unit in a fleet, used to instantiate C9. -/
def c9d : DroneState :=
  { lat := 0, lon := 0, alt := 95, battery := 25, status := .active,
    returning_home := false, rth_reason := none, rth_initiated := false,
    emergency_mode := false, landed_at := false }

/-- A one-unit fleet holding only GUARD-02. -/
def c9fleet : Fleet := [("GUARD-02", c9d)]

/-- C9 witness: an unknown id fails without mutation, the known id
succeeds. -/
theorem c9_manual_rth_unknown_witness :
    manual_rth c9fleet "GUARD-99" = (false, c9fleet, 0) ∧
    (manual_rth c9fleet "GUARD-02").1 = true := by
  exact ⟨c9_manual_rth_unknown.1 c9fleet "GUARD-99" rfl,
    c9_manual_rth_unknown.2 c9fleet "GUARD-02" c9d rfl⟩

/-- Fewer than 10 samples: the 0.1 fallback. -/
theorem detect_rf_short (hist : List SignalSample)
    (hl : hist.length < 10) : detect_rf_interference hist = 1/10 := by
  simp [detect_rf_interference, hl]

/-- No truthy wifi values among the last 10 samples: the 0.5 fallback. -/
theorem detect_rf_nowifi (hist : List SignalSample)
    (hl : ¬ hist.length < 10)
    (he : (last_n 10 hist).filterMap truthy_wifi = []) :
    detect_rf_interference hist = 1/2 := by
  simp [detect_rf_interference, hl, he]

/-- The main branch computes `min(variance / 100, 1)`. -/
theorem detect_rf_main (hist : List SignalSample)
    (hl : ¬ hist.length < 10)
    (he : (last_n 10 hist).filterMap truthy_wifi ≠ []) :
    detect_rf_interference hist
      = qmin (list_var ((last_n 10 hist).filterMap truthy_wifi) / 100) 1 := by
  simp [detect_rf_interference, hl, he]

/-- Every return value of `detect_rf_interference` lies in [0, 1]. -/
theorem detect_rf_bounds (hist : List SignalSample) :
    0 ≤ detect_rf_interference hist ∧ detect_rf_interference hist ≤ 1 := by
  by_cases hl : hist.length < 10
  · rw [detect_rf_short hist hl]
    norm_num
  · by_cases he : (last_n 10 hist).filterMap truthy_wifi = []
    · rw [detect_rf_nowifi hist hl he]
      norm_num
    · rw [detect_rf_main hist hl he, qmin_eq_min]
      exact ⟨le_min (div_nonneg (list_var_nonneg _) (by norm_num))
        zero_le_one, min_le_right _ _⟩

/-- With fewer than 10 samples, or at most one truthy wifi value among the
last 10, the estimate stays strictly below the breach threshold. -/
theorem detect_rf_below_threshold (hist : List SignalSample)
    (h : hist.length < 10 ∨
      ((last_n 10 hist).filterMap truthy_wifi).length ≤ 1) :
    detect_rf_interference hist < interference_threshold := by
  by_cases hl : hist.length < 10
  · rw [detect_rf_short hist hl, interference_threshold]
    norm_num
  · have hcount : ((last_n 10 hist).filterMap truthy_wifi).length ≤ 1 :=
      h.resolve_left hl
    rcases hrec : (last_n 10 hist).filterMap truthy_wifi with _ | ⟨x, tail⟩
    · rw [detect_rf_nowifi hist hl hrec, interference_threshold]
      norm_num
    · have htail : tail = [] := by
        rw [hrec] at hcount
        simpa using hcount
      subst htail
      rw [detect_rf_main hist hl (by rw [hrec]; simp), hrec,
        list_var_singleton, interference_threshold, qmin_eq_min]
      have hz : (0 : ℚ) / 100 = 0 := by norm_num
      rw [hz, min_eq_left (by norm_num : (0:ℚ) ≤ 1)]
      norm_num

/-- A rolling signal sample with the given wifi reading. -/
def c10sample (w : Option ℚ) : SignalSample :=
  { timestamp := 0, wifi := w, cellular := none }

/-- Ten accumulated samples of which only two carry truthy wifi values. -/
def c10hist : List SignalSample :=
  [c10sample none, c10sample none, c10sample none, c10sample none,
   c10sample (some 0), c10sample (some 0), c10sample none, c10sample none,
   c10sample (some 10), c10sample (some 40)]

/-- C10 counterexample: with 10 accumulated samples of which only two have
truthy wifi values (far fewer than the 10 wifi-valued samples the claim
requires), the estimate is min(225/100, 1) = 1 ≥ 0.8, so an
rf_interference breach is already possible. -/
theorem c10_counterexample :
    c10hist.length = 10 ∧
    (c10hist.filterMap truthy_wifi).length = 2 ∧
    interference_threshold ≤ detect_rf_interference c10hist := by
  refine ⟨rfl, rfl, ?_⟩
  have hrec : (last_n 10 c10hist).filterMap truthy_wifi = [10, 40] := by
    norm_num [c10hist, c10sample, last_n, truthy_wifi,
      List.filterMap_cons, List.filterMap_nil]
  have hvar : list_var [10, 40] = 225 := by
    norm_num [list_var, list_mean]
  have h : detect_rf_interference c10hist = 1 := by
    rw [detect_rf_main c10hist (by decide) (by rw [hrec]; simp), hrec, hvar]
    norm_num [qmin]
  rw [h, interference_threshold]
  norm_num

/-- C10 (amended): `detect_rf_interference` always returns a value in
[0, 1]; with fewer than 10 accumulated samples it returns the 0.1 fallback,
with no truthy wifi value among the last 10 it returns 0.5, and otherwise
min(variance / 100, 1). The value stays below the 0.8 breach threshold
while fewer than 10 samples have accumulated, or while at most one of the
last 10 samples carries a truthy wifi value — but once 10 samples exist, two
wifi-valued samples among them already suffice for a breach. -/
theorem c10_rf_interference_bounds (hist : List SignalSample) :
    (0 ≤ detect_rf_interference hist ∧ detect_rf_interference hist ≤ 1) ∧
    (hist.length < 10 → detect_rf_interference hist = 1/10) ∧
    (¬ hist.length < 10 →
      (last_n 10 hist).filterMap truthy_wifi = [] →
      detect_rf_interference hist = 1/2) ∧
    (¬ hist.length < 10 →
      (last_n 10 hist).filterMap truthy_wifi ≠ [] →
      detect_rf_interference hist
        = qmin (list_var ((last_n 10 hist).filterMap truthy_wifi) / 100)
            1) ∧
    ((hist.length < 10 ∨
        ((last_n 10 hist).filterMap truthy_wifi).length ≤ 1) →
      detect_rf_interference hist < interference_threshold) := by
  exact ⟨detect_rf_bounds hist, detect_rf_short hist,
    detect_rf_nowifi hist, detect_rf_main hist,
    detect_rf_below_threshold hist⟩

/-- A single accumulated sample. -/
def c10short : List SignalSample := [c10sample (some 45)]

/-- C10 witness: the amended theorem evaluated on a one-sample history and
on the ten-sample history. -/
theorem c10_rf_interference_bounds_witness :
    detect_rf_interference c10short = 1/10 ∧
    detect_rf_interference c10short < interference_threshold ∧
    0 ≤ detect_rf_interference c10hist ∧
    detect_rf_interference c10hist ≤ 1 := by
  refine ⟨(c10_rf_interference_bounds c10short).2.1 (by decide),
    (c10_rf_interference_bounds c10short).2.2.2.2 (Or.inl (by decide)),
    (c10_rf_interference_bounds c10hist).1.1,
    (c10_rf_interference_bounds c10hist).1.2⟩

end GuardX
